import Mathlib

/-!
Shallow embedding of the DSD604 Kiwi Quiz application's logical core:
the static quiz corpus and the derived answer-option list (`quiz.js`),
the random index draw (`Utilities/Random.jsx`), and the game state
machine of `App.jsx` (`onClickHandlerNewGame`, `handleAnswerChange`,
`winLoseCalc`, and the message shown by the render).

JavaScript particulars modelled explicitly:
* `Math.random()` is an explicit rational draw `rnd` with `0 ≤ rnd < 1`;
  `Math.floor` is `Int.floor`.
* `allData[rand]` on an out-of-range index is `undefined` and the
  subsequent `.Q` access throws: the new-game transition returns
  `Option GameState`, `none` standing for that runtime failure.
* `winLoseCalc` returns no string when its guard
  `answerLet !== "undefined"` fails (the JavaScript function returns
  `undefined`); string concatenation with `undefined` renders the text
  `"undefined"`, modelled by `Option.getD _ "undefined"`.
* the array `sort` comparator `(a, b) => (a.value > b.value ? 1 : -1)`
  orders `a` before `b` exactly when `¬ (b.value < a.value)`; the sort is
  modelled by `List.mergeSort` on that relation.
-/

namespace KiwiQuiz

/-- A question/answer pair, as in the `quizData` array of `quiz.js`. -/
structure QuizEntry where
  Q : String
  A : String
deriving DecidableEq, Repr

/-- The static corpus `quizData` of `quiz.js` (all 28 entries, verbatim). -/
def quizData : List QuizEntry :=
  [ { Q := "What is the capital of New Zealand", A := "Wellington" },
    { Q := "What is New Zealand’s official name in Maori", A := "Aotearoa" },
    { Q := "What currency is used in New Zealand", A := "New Zealand Dollar" },
    { Q := "What colours are on the flag of New Zealand", A := "Blue, red and white" },
    { Q := "What are the two main political parties in New Zealand", A := "National and Labour" },
    { Q := "What is the nickname given to New Zealanders", A := "Kiwi(s)" },
    { Q := "Who was the first European to arrive in New Zealand",
      A := "(+ Bonus point for his nationality) Abel Tasman, Dutch" },
    { Q := "Who is New Zealand’s monarch", A := "King Charles" },
    { Q := "How many official languages are there in NZ",
      A := "Two. Te reo Māori (the language Māori) and New Zealand Sign Language." },
    { Q := "What are the two national anthems of New Zealand",
      A := "(1 point each) “God defend New Zealand” and “God Save the Queen”" },
    { Q := "How tall is Aoraki Mount Cook", A := "3,754 metres" },
    { Q := "When did Captain Cook come to the islands", A := "1769" },
    { Q := "When did New Zealand gain independence from Britain", A := "1947" },
    { Q := "What animal can you find on a 1 dollar coin", A := "Kiwi" },
    { Q := "In 1893, New Zealand became the first country to do what",
      A := "Give women the right to vote" },
    { Q := "What is a Tuatara", A := "Reptile" },
    { Q := "When was NZ Rugby Football Union founded", A := "1892" },
    { Q := "When was New Zealand first Poppy Day", A := "1922" },
    { Q := "What is the name of the strait that separates the North and South Islands",
      A := "Cook Strait" },
    { Q := "What is the largest lake in New Zealand", A := "Lake Taupo" },
    { Q := "What is the largest city in New Zealand", A := "Auckland" },
    { Q := "What is the highest mountain peak in New Zealand", A := "Aoraki Mount Cook" },
    { Q := "How many regions are there in New Zealand", A := "16" },
    { Q := "What is the highest range of mountains in Australasia", A := "Southern Alps" },
    { Q := "What is the largest glacier in New Zealand", A := "The Tasman Glacier" },
    { Q := "On which island can you find the Canterbury Plains", A := "South Island" },
    { Q := "What is the longest river in New Zealand", A := "Waikato River" },
    { Q := "In which city can you find the Sky Tower", A := "Auckland" } ]

/-- A dropdown option `{ value: item.A, label: item.A }`. -/
structure AnswerOption where
  value : String
  label : String
deriving DecidableEq, Repr

/-- The order induced by the comparator `(a, b) => (a.value > b.value ? 1 : -1)`:
`a` may precede `b` exactly when the comparator does not return `1`,
i.e. when `¬ (b.value < a.value)`. -/
def ansLe (a b : AnswerOption) : Bool :=
  ! decide (b.value < a.value)

/-- `sortedListAnswers` of `quiz.js`: map every entry to an option and sort
ascending with the comparator above. -/
def sortedListAnswers : List AnswerOption :=
  ((quizData.map fun item => { value := item.A, label := item.A }).mergeSort ansLe)

/-- `Random` of `Utilities/Random.jsx`:
`min = 0`, `max = length - 1`, `Math.floor(rnd * (max - min + 1)) + min`. -/
def Random (length : Nat) (rnd : ℚ) : Int :=
  let min : Int := 0
  let max : Int := (length : Int) - 1
  ⌊rnd * ((max : ℚ) - (min : ℚ) + 1)⌋ + min

/-- The state held by `App`: `gameData` (current question/answer pair),
`answer` (the user's selection) and `winlose` (the stored message suffix). -/
structure GameState where
  gameData : QuizEntry
  answer : String
  winlose : String
deriving DecidableEq, Repr

/-- The initial state: `{ Q: "Start", A: "Start" }`, empty answer,
empty win/lose message. -/
def initialState : GameState :=
  { gameData := { Q := "Start", A := "Start" }, answer := "", winlose := "" }

/-- The new-game update over an arbitrary corpus: draw `rand`, read
`corpus[rand]` (a failure — `none` — when the index is out of range, as the
JavaScript field access on `undefined` throws), and replace the whole state:
`answer` and `winlose` are reset to `""` and `gameData` is set from the
picked entry, all in the one resulting state. -/
def newGameState (corpus : List QuizEntry) (rnd : ℚ) : Option GameState :=
  if h : 0 ≤ Random corpus.length rnd ∧ (Random corpus.length rnd).toNat < corpus.length then
    some { gameData := corpus.get ⟨(Random corpus.length rnd).toNat, h.2⟩,
           answer := "", winlose := "" }
  else
    none

/-- `onClickHandlerNewGame` of `App.jsx`: the previous state is ignored and
the new state is built from the corpus `quizData` at the drawn index. -/
def onClickHandlerNewGame (rnd : ℚ) (_s : GameState) : Option GameState :=
  newGameState quizData rnd

/-- `winLoseCalc` of `App.jsx`: when the chosen string is not the literal
string `"undefined"`, compare it with `gameData.A`; otherwise the JavaScript
function falls through and returns `undefined` (here `none`). -/
def winLoseCalc (answerLet : String) (gameA : String) : Option String :=
  if answerLet ≠ "undefined" then
    if answerLet = gameA then some "win" else some "lose"
  else
    none

/-- `handleAnswerChange` of `App.jsx`: store the choice in `answer` and set
`winlose` to `"- you " + winLoseCalc(choice)`; concatenating the JavaScript
`undefined` renders as the text `"undefined"`. -/
def handleAnswerChange (choice : String) (s : GameState) : GameState :=
  { s with
    answer := choice,
    winlose := "- you " ++ (winLoseCalc choice s.gameData.A).getD "undefined" }

/-- The message line of the render:
`{answer ? "You selected " + answer + winlose : ""}`. -/
def displayMessage (s : GameState) : String :=
  if s.answer ≠ "" then "You selected " ++ s.answer ++ s.winlose else ""

/-- The states the application can reach: the initial state, a successful
new-game update of a reachable state (with a draw in `[0, 1)`, as
`Math.random()` guarantees), or an answer selection in a reachable state. -/
inductive Reachable : GameState → Prop where
  | init : Reachable initialState
  | newGame {s s' : GameState} {rnd : ℚ} : Reachable s → 0 ≤ rnd → rnd < 1 →
      onClickHandlerNewGame rnd s = some s' → Reachable s'
  | select {s : GameState} (choice : String) :
      Reachable s → Reachable (handleAnswerChange choice s)

/-! ### Helper lemmas -/

/-- `Random length rnd` is just `⌊rnd * length⌋`: with `min = 0` and
`max = length - 1`, the span `max - min + 1` is `length`. -/
theorem Random_eq (length : Nat) (rnd : ℚ) : Random length rnd = ⌊rnd * (length : ℚ)⌋ := by
  unfold Random
  push_cast
  ring_nf

/-- For a draw in `[0, 1)` and a positive length, the drawn index is in
`[0, length)`. -/
theorem Random_range_of_pos {L : Nat} (hL : 0 < L) {rnd : ℚ}
    (h0 : 0 ≤ rnd) (h1 : rnd < 1) :
    0 ≤ Random L rnd ∧ Random L rnd < (L : Int) := by
  have hL' : (0 : ℚ) < (L : ℚ) := by exact_mod_cast hL
  rw [Random_eq]
  constructor
  · exact Int.floor_nonneg.mpr (mul_nonneg h0 hL'.le)
  · exact Int.floor_lt.mpr (by push_cast; exact mul_lt_of_lt_one_left hL' h1)

/-- On a non-empty corpus and a draw in `[0, 1)`, the new-game update
succeeds and produces exactly the reset state built from the picked entry. -/
theorem newGameState_eq {corpus : List QuizEntry} (hc : corpus ≠ []) {rnd : ℚ}
    (h0 : 0 ≤ rnd) (h1 : rnd < 1) :
    ∃ hlt : (Random corpus.length rnd).toNat < corpus.length,
      newGameState corpus rnd =
        some { gameData := corpus.get ⟨(Random corpus.length rnd).toNat, hlt⟩,
               answer := "", winlose := "" } := by
  have hL : 0 < corpus.length := List.length_pos.mpr hc
  obtain ⟨hnn, hlt⟩ := Random_range_of_pos hL h0 h1
  have hlt' : (Random corpus.length rnd).toNat < corpus.length := by omega
  refine ⟨hlt', ?_⟩
  rw [newGameState, dif_pos ⟨hnn, hlt'⟩]

/-- Every answer in the corpus is a non-empty string. -/
theorem quizData_A_ne_empty : ∀ e ∈ quizData, e.A ≠ "" := by decide

/-- Reachable states carry either the initial sentinel pair or an entry of
the corpus as their `gameData`. -/
theorem Reachable.gameData_ok {s : GameState} (h : Reachable s) :
    s.gameData = initialState.gameData ∨ s.gameData ∈ quizData := by
  induction h with
  | init => exact Or.inl rfl
  | newGame hs h0 h1 heq ih =>
    right
    unfold onClickHandlerNewGame newGameState at heq
    split at heq
    · cases heq
      exact List.get_mem _ _ _
    · cases heq
  | select choice hs ih => simpa [handleAnswerChange] using ih

/-- The current correct answer of a reachable state is never the empty
string (`"Start"` and every corpus answer are non-empty). -/
theorem Reachable.A_ne_empty {s : GameState} (h : Reachable s) : s.gameData.A ≠ "" := by
  rcases h.gameData_ok with h1 | h1
  · rw [h1]; decide
  · exact quizData_A_ne_empty _ h1

/-- In a reachable state, either no answer is selected, or the stored
win/lose text is the one computed from the selected answer and the current
correct answer. -/
theorem Reachable.winlose_ok {s : GameState} (h : Reachable s) :
    s.answer = "" ∨
      s.winlose = "- you " ++ (winLoseCalc s.answer s.gameData.A).getD "undefined" := by
  induction h with
  | init => exact Or.inl rfl
  | newGame hs h0 h1 heq ih =>
    left
    unfold onClickHandlerNewGame newGameState at heq
    split at heq
    · cases heq; rfl
    · cases heq
  | select choice hs ih => exact Or.inr rfl

/-! ### Claims -/

/-- C1 (amended): for every state and every choice other than the literal
string `"undefined"`, `handleAnswerChange` sets the selected answer to the
choice, the win/lose calculation yields `"win"` exactly when the choice
equals the current correct answer and `"lose"` otherwise, and the stored
message suffix is `"- you win"` / `"- you lose"` accordingly. -/
theorem handleAnswerChange_spec (s : GameState) (choice : String)
    (h : choice ≠ "undefined") :
    (handleAnswerChange choice s).answer = choice ∧
    winLoseCalc choice s.gameData.A =
      some (if choice = s.gameData.A then "win" else "lose") ∧
    (handleAnswerChange choice s).winlose =
      "- you " ++ (if choice = s.gameData.A then "win" else "lose") := by
  have hcalc : winLoseCalc choice s.gameData.A =
      some (if choice = s.gameData.A then "win" else "lose") := by
    rw [winLoseCalc, if_pos h]
    split <;> rfl
  refine ⟨rfl, hcalc, ?_⟩
  show "- you " ++ (winLoseCalc choice s.gameData.A).getD "undefined" = _
  rw [hcalc, Option.getD_some]

/-- Witness for C1 at the choice `"Wellington"` in the initial state. -/
theorem handleAnswerChange_spec_witness :
    (handleAnswerChange "Wellington" initialState).answer = "Wellington" ∧
    winLoseCalc "Wellington" initialState.gameData.A =
      some (if "Wellington" = initialState.gameData.A then "win" else "lose") ∧
    (handleAnswerChange "Wellington" initialState).winlose =
      "- you " ++ (if "Wellington" = initialState.gameData.A then "win" else "lose") :=
  handleAnswerChange_spec initialState "Wellington" (by decide)

/-- C1 counterexample: the claim as stated fails at the choice
`"undefined"` — `winLoseCalc` returns no outcome there (the JavaScript
function returns `undefined`), the stored suffix is `"- you undefined"`,
not `"- you lose"`, although the choice differs from the correct answer. -/
theorem handleAnswerChange_undefined_cex :
    Reachable (handleAnswerChange "undefined" initialState) ∧
    "undefined" ≠ initialState.gameData.A ∧
    winLoseCalc "undefined" initialState.gameData.A = none ∧
    (handleAnswerChange "undefined" initialState).winlose = "- you undefined" ∧
    (handleAnswerChange "undefined" initialState).winlose ≠ "- you lose" :=
  ⟨Reachable.select "undefined" Reachable.init, by decide⟩

/-- C2: for every prior state and every draw in `[0, 1)`, the new-game
transition produces the one state whose `gameData` is the corpus entry at
the drawn index and whose `answer` and `winlose` are both reset to `""` in
that same state. -/
theorem onClickHandlerNewGame_resets (s : GameState) (rnd : ℚ)
    (h0 : 0 ≤ rnd) (h1 : rnd < 1) :
    ∃ hlt : (Random quizData.length rnd).toNat < quizData.length,
      onClickHandlerNewGame rnd s =
        some { gameData := quizData.get ⟨(Random quizData.length rnd).toNat, hlt⟩,
               answer := "", winlose := "" } :=
  newGameState_eq (by decide) h0 h1

/-- Witness for C2 at the initial state with the draw `0`. -/
theorem onClickHandlerNewGame_resets_witness :
    ∃ hlt : (Random quizData.length 0).toNat < quizData.length,
      onClickHandlerNewGame 0 initialState =
        some { gameData := quizData.get ⟨(Random quizData.length 0).toNat, hlt⟩,
               answer := "", winlose := "" } :=
  onClickHandlerNewGame_resets initialState 0 (le_refl 0) (by norm_num)

/-- C3: for every corpus length `L ≥ 1` and every draw `rnd` with
`0 ≤ rnd < 1`, `Random L rnd` is an integer in `[0, L-1]`, and for `L = 1`
it is `0` for every draw. -/
theorem Random_in_range (L : Nat) (rnd : ℚ) (hL : 1 ≤ L)
    (h0 : 0 ≤ rnd) (h1 : rnd < 1) :
    0 ≤ Random L rnd ∧ Random L rnd ≤ (L : Int) - 1 ∧
      (L = 1 → Random L rnd = 0) := by
  obtain ⟨hnn, hlt⟩ := @Random_range_of_pos L (by omega) rnd h0 h1
  refine ⟨hnn, by omega, fun hL1 => ?_⟩
  subst hL1
  omega

/-- Witness for C3 at `L = 3`, `rnd = 1/2`. -/
theorem Random_in_range_witness :
    0 ≤ Random 3 (1/2) ∧ Random 3 (1/2) ≤ (3 : Int) - 1 ∧
      (3 = 1 → Random 3 (1/2) = 0) :=
  Random_in_range 3 (1/2) (by norm_num) (by norm_num) (by norm_num)

/-- C4 counterexample: nothing guards the empty corpus — `Random 0` still
returns the index `0` (no error value exists in its type), and the new-game
update on an empty corpus fails at the entry lookup (the modelled runtime
failure `none`) instead of reporting an explicit error. -/
theorem emptyCorpus_unguarded_cex :
    Random 0 (1/2) = 0 ∧ newGameState [] (1/2) = none := by
  have h : Random 0 (1/2) = 0 := by
    rw [Random_eq]
    norm_num
  refine ⟨h, ?_⟩
  rw [newGameState, dif_neg]
  simp [h]

/-- C4 (amended): the code has no empty-corpus guard, but on the shipped
corpus (28 entries) the new-game transition always succeeds for any draw in
`[0, 1)`: the failure is unreachable rather than guarded. -/
theorem onClickHandlerNewGame_succeeds (s : GameState) (rnd : ℚ)
    (h0 : 0 ≤ rnd) (h1 : rnd < 1) :
    quizData.length = 28 ∧ (onClickHandlerNewGame rnd s).isSome = true := by
  obtain ⟨hlt, heq⟩ := newGameState_eq (show quizData ≠ [] by decide) h0 h1
  refine ⟨by decide, ?_⟩
  rw [onClickHandlerNewGame, heq]
  rfl

/-- Witness for C4's amended theorem at the initial state with the draw `1/2`. -/
theorem onClickHandlerNewGame_succeeds_witness :
    quizData.length = 28 ∧ (onClickHandlerNewGame (1/2) initialState).isSome = true :=
  onClickHandlerNewGame_succeeds initialState (1/2) (by norm_num) (by norm_num)

/-- C5: the sequence returned by `sortedListAnswers` is sorted ascending
under the default string ordering: every adjacent pair `(a, b)` satisfies
`a.value ≤ b.value`. -/
theorem sortedListAnswers_sorted :
    List.Chain' (fun a b => a.value ≤ b.value) sortedListAnswers := by
  have htrans : ∀ a b c : AnswerOption, ansLe a b → ansLe b c → ansLe a c := by
    intro a b c hab hbc
    simp only [ansLe, Bool.not_eq_eq_eq_not, Bool.not_true, decide_eq_false_iff_not,
      not_lt] at *
    exact le_trans hab hbc
  have htotal : ∀ a b : AnswerOption, ansLe a b || ansLe b a := by
    intro a b
    simp only [ansLe, Bool.or_eq_true, Bool.not_eq_eq_eq_not, Bool.not_true,
      decide_eq_false_iff_not, not_lt]
    exact le_total a.value b.value
  have hp : sortedListAnswers.Pairwise (fun a b => ansLe a b) :=
    List.sorted_mergeSort htrans htotal _
  have hp' : sortedListAnswers.Pairwise (fun a b => a.value ≤ b.value) := by
    refine hp.imp ?_
    intro a b hab
    simpa only [ansLe, Bool.not_eq_eq_eq_not, Bool.not_true, decide_eq_false_iff_not,
      not_lt] using hab
  exact hp'.chain'

/-- C6: `sortedListAnswers` keeps one option per corpus entry — same
length, same multiset of answer strings (no deduplication), `value = label`
throughout, and every corpus answer is covered by at least one option. -/
theorem sortedListAnswers_coverage :
    sortedListAnswers.length = quizData.length ∧
    (sortedListAnswers.map AnswerOption.value).Perm (quizData.map QuizEntry.A) ∧
    (∀ o ∈ sortedListAnswers, o.value = o.label) ∧
    (∀ e ∈ quizData, ∃ o ∈ sortedListAnswers, o.value = e.A) := by
  have hperm : sortedListAnswers.Perm
      (quizData.map fun item => ({ value := item.A, label := item.A } : AnswerOption)) :=
    List.mergeSort_perm _ _
  refine ⟨?_, ?_, ?_, ?_⟩
  · rw [hperm.length_eq, List.length_map]
  · have hm := hperm.map AnswerOption.value
    simpa [List.map_map, Function.comp] using hm
  · intro o ho
    obtain ⟨item, _, rfl⟩ := List.mem_map.mp (hperm.mem_iff.mp ho)
    rfl
  · intro e he
    exact ⟨{ value := e.A, label := e.A }, hperm.mem_iff.mpr (List.mem_map.mpr ⟨e, he, rfl⟩), rfl⟩

/-- C7 (amended): in every reachable state whose selected answer is
non-empty and not the literal string `"undefined"`, the rendered message is
`"You selected " ++ selectedAnswer ++ suffix` with suffix `"- you win"`
when the selection equals the current correct answer and `"- you lose"`
otherwise (no space before the hyphen). -/
theorem displayMessage_spec (s : GameState) (h : Reachable s)
    (hne : s.answer ≠ "") (hnu : s.answer ≠ "undefined") :
    displayMessage s =
      "You selected " ++ s.answer ++
        (if s.answer = s.gameData.A then "- you win" else "- you lose") := by
  rcases h.winlose_ok with h1 | h1
  · exact absurd h1 hne
  · rw [displayMessage, if_pos hne, h1, winLoseCalc, if_pos hnu]
    split <;> rfl

/-- Witness for C7 at the reachable state obtained by selecting `"Kiwi"`
in the initial state. -/
theorem displayMessage_spec_witness :
    displayMessage (handleAnswerChange "Kiwi" initialState) =
      "You selected " ++ (handleAnswerChange "Kiwi" initialState).answer ++
        (if (handleAnswerChange "Kiwi" initialState).answer =
            (handleAnswerChange "Kiwi" initialState).gameData.A
         then "- you win" else "- you lose") :=
  displayMessage_spec (handleAnswerChange "Kiwi" initialState)
    (Reachable.select "Kiwi" Reachable.init) (by decide) (by decide)

/-- C7 counterexample: in the reachable state reached by selecting the
literal string `"undefined"`, the rendered message is
`"You selected undefined- you undefined"` — its suffix is neither
`"- you win"` nor `"- you lose"`. -/
theorem displayMessage_undefined_cex :
    Reachable (handleAnswerChange "undefined" initialState) ∧
    (handleAnswerChange "undefined" initialState).answer ≠ "" ∧
    displayMessage (handleAnswerChange "undefined" initialState) =
      "You selected undefined- you undefined" ∧
    displayMessage (handleAnswerChange "undefined" initialState) ≠
      "You selected " ++ "undefined" ++ "- you win" ∧
    displayMessage (handleAnswerChange "undefined" initialState) ≠
      "You selected " ++ "undefined" ++ "- you lose" :=
  ⟨Reachable.select "undefined" Reachable.init, by decide⟩

/-- C8: an empty choice never silently wins — for every reachable state,
`winLoseCalc ""` returns `"win"` exactly when the current correct answer is
the empty string, and no reachable state has an empty current correct
answer (`"Start"` and all corpus answers are non-empty). -/
theorem empty_choice_no_win (s : GameState) (h : Reachable s) :
    (winLoseCalc "" s.gameData.A = some "win" ↔ s.gameData.A = "") ∧
    winLoseCalc "" s.gameData.A ≠ some "win" := by
  have hA := h.A_ne_empty
  have hcalc : winLoseCalc "" s.gameData.A = some "lose" := by
    rw [winLoseCalc, if_pos (by decide), if_neg (fun hh => hA hh.symm)]
  rw [hcalc]
  refine ⟨⟨fun hw => ?_, fun h' => absurd h' hA⟩, by simp⟩
  exact absurd (Option.some.inj hw) (by decide)

/-- Witness for C8 at the initial state. -/
theorem empty_choice_no_win_witness :
    (winLoseCalc "" initialState.gameData.A = some "win" ↔
      initialState.gameData.A = "") ∧
    winLoseCalc "" initialState.gameData.A ≠ some "win" :=
  empty_choice_no_win initialState Reachable.init

/-- C9: selecting is overwrite-on-reselect — selecting `a` and then `b`
yields exactly the state of selecting `b` alone, and in particular
selecting the correct answer after any other selection stores the winning
suffix without an intervening new question. -/
theorem handleAnswerChange_overwrite (s : GameState) (a b : String) :
    handleAnswerChange b (handleAnswerChange a s) = handleAnswerChange b s ∧
    (b = s.gameData.A → b ≠ "undefined" →
      (handleAnswerChange b (handleAnswerChange a s)).winlose = "- you win") := by
  refine ⟨rfl, fun hb hbu => ?_⟩
  show "- you " ++ (winLoseCalc b s.gameData.A).getD "undefined" = "- you win"
  rw [winLoseCalc, if_pos hbu, if_pos hb, Option.getD_some]
  decide

/-- C10: every reachable state's question/answer pair is the sentinel
`("Start", "Start")` or a single entry of the corpus, and selecting an
answer never changes that pair. -/
theorem gameData_pair_from_corpus (s : GameState) (h : Reachable s) :
    (s.gameData = { Q := "Start", A := "Start" } ∨ s.gameData ∈ quizData) ∧
    ∀ choice, (handleAnswerChange choice s).gameData = s.gameData :=
  ⟨h.gameData_ok, fun _ => rfl⟩

/-- Witness for C10 at the initial state. -/
theorem gameData_pair_from_corpus_witness :
    (initialState.gameData = { Q := "Start", A := "Start" } ∨
      initialState.gameData ∈ quizData) ∧
    ∀ choice, (handleAnswerChange choice initialState).gameData = initialState.gameData :=
  gameData_pair_from_corpus initialState Reachable.init

end KiwiQuiz
